import Mathlib

/-!
# Verification of the illumos-installer declarative-instruction pipeline

This file gives a shallow embedding, in Lean 4, of the parts of the
`Toasterson/illumos-installer` repository that the testable properties of the
specification talk about:

* the filesystem convergence primitives of `libinstall/src/ensure.rs`
  (`check`, `perms`, `filestr`, `comparestr`);
* the vdev-grouping loop of the `zpool-create` keyword compiler in
  `libinstall/src/lib.rs` (`parse_keywords`) and the single-disk validation
  loop of `create_pool`;
* the option-map construction of `libcfgparser/src/lib.rs`
  (`SysConfigParser::parse_config`);
* the keyword compiler of `libsysconfig/src/lib.rs` (`parse_keywords`);
* the `SetRootPassword` arm of `libsysconfig/src/illumos_driver.rs`
  together with the `libshadow` shadow-file operations it uses;
* the pool-export retry loop of `libinstall/src/zfs.rs` (`pool_export`).

Filesystem state is modelled as the entry present at the destination path
(the primitives only inspect and mutate that one path); external command
execution is modelled by an oracle giving the outcome of each attempt.
-/

namespace Ensure

/-- Embeds `FileType` of `libinstall/src/ensure.rs`. -/
inductive FileType where
  | Directory
  | File
  | Link
deriving DecidableEq, Repr

/-- The filesystem entry at a path.  `ensure.rs::check` reports the fields of
`FileInfo` (type, permission bits, owner id, group id, link target); the
`contents` field carries the file bytes that `comparestr` reads back from
disk.  Owner and group are the numeric ids (`Id::Id`) that `lstat` reports. -/
structure FileEntry where
  filetype : FileType
  perms : Nat
  owner : Nat
  group : Nat
  target : Option String
  contents : String
deriving DecidableEq, Repr

/-- The state of the filesystem at the destination path: `none` when no entry
exists (`lstat` returns `ENOENT`), `some e` otherwise. -/
abbrev FsState := Option FileEntry

/-- Errors raised by the convergence primitives (`bail!` in the source). -/
inductive EnsureError where
  | doesNotExist
  | wrongType
deriving DecidableEq, Repr

/-- Syscalls issued by `perms`: `chmod` and `lchown`. -/
inductive FsAction where
  | chmod (mode : Nat)
  | chown (owner group : Nat)
deriving DecidableEq, Repr

/-- Result of `ensure.rs::perms`: the returned `did_work` flag, the syscalls
that were issued, and the entry at the path afterwards. -/
structure PermsOut where
  did_work : Bool
  actions : List FsAction
  state : FsState
deriving DecidableEq, Repr

/-- Embeds `ensure.rs::perms` (lines 126-171).  The current entry is
inspected (`check`); a missing entry is an error.  A `chmod` is issued only
when the entry is not a symbolic link and its permission bits differ from the
requested ones; ownership is compared against the requested owner/group and a
`chown` is issued on mismatch.  `did_work` is true iff any syscall was
issued. -/
def perms (st : FsState) (owner group mode : Nat) : Except EnsureError PermsOut :=
  match st with
  | none => .error .doesNotExist
  | some fi =>
    let step1 : Bool × List FsAction × FileEntry :=
      if fi.filetype ≠ FileType.Link ∧ fi.perms ≠ mode then
        (true, [FsAction.chmod mode], { fi with perms := mode })
      else
        (false, [], fi)
    let (w1, a1, fi1) := step1
    if fi.owner = owner ∧ fi.group = group then
      .ok ⟨w1, a1, some fi1⟩
    else
      .ok ⟨true, a1 ++ [FsAction.chown owner group],
          some { fi1 with owner := owner, group := group }⟩

/-- Embeds the `Create` policy enum of `ensure.rs`. -/
inductive Create where
  | IfMissing
  | Always
deriving DecidableEq, Repr

/-- The ambient process context under which a file is created:
`OpenOptions::create_new` creates the file with mode `0o666 & !umask` owned
by the calling process, before `perms` reconciles mode and ownership. -/
structure ProcCtx where
  createMode : Nat
  uid : Nat
  gid : Nat
deriving DecidableEq, Repr

/-- The entry written by the `do_copy` branch of `filestr`: a fresh regular
file holding `contents`, with the creation mode and process ownership. -/
def newFile (ctx : ProcCtx) (contents : String) : FileEntry :=
  { filetype := FileType.File, perms := ctx.createMode, owner := ctx.uid,
    group := ctx.gid, target := none, contents := contents }

/-- Embeds `ensure.rs::filestr` (lines 299-388).  Returns the `did_work`
flag and the entry at the destination afterwards.  The existing entry is
inspected; under `IfMissing` an existing file or symlink is left alone and
any other type is an error; under `Always` an existing file with the wrong
contents (`comparestr`, byte-exact; here string equality) or an entry of any
other type is unlinked and rewritten.  `perms` then reconciles mode and
ownership unconditionally. -/
def filestr (ctx : ProcCtx) (contents : String) (st : FsState)
    (owner group mode : Nat) (create : Create) :
    Except EnsureError (Bool × FsState) :=
  let decide_copy : Except EnsureError (Bool × FsState) :=
    match st with
    | some fi =>
      match create with
      | .IfMissing =>
        if fi.filetype = FileType.File then .ok (false, st)
        else if fi.filetype = FileType.Link then .ok (false, st)
        else .error .wrongType
      | .Always =>
        if fi.filetype = FileType.File then
          if fi.contents = contents then .ok (false, st)
          else .ok (true, none)
        else .ok (true, none)
    | none => .ok (true, none)
  match decide_copy with
  | .error e => .error e
  | .ok (do_copy, st1) =>
    let st2 : FsState := if do_copy then some (newFile ctx contents) else st1
    match perms st2 owner group mode with
    | .error e => .error e
    | .ok pr => .ok (do_copy || pr.did_work, pr.state)

/-- Characterization of `perms` on an existing entry: the four possible
outcomes according to whether a `chmod` and/or a `chown` is needed. -/
theorem perms_some (fi : FileEntry) (o g m : Nat) :
    perms (some fi) o g m =
      .ok (if fi.filetype ≠ FileType.Link ∧ fi.perms ≠ m then
             if fi.owner = o ∧ fi.group = g then
               ⟨true, [FsAction.chmod m], some { fi with perms := m }⟩
             else
               ⟨true, [FsAction.chmod m, FsAction.chown o g],
                some { fi with perms := m, owner := o, group := g }⟩
           else
             if fi.owner = o ∧ fi.group = g then
               ⟨false, [], some fi⟩
             else
               ⟨true, [FsAction.chown o g],
                some { fi with owner := o, group := g }⟩) := by
  by_cases h1 : fi.filetype ≠ FileType.Link ∧ fi.perms ≠ m <;>
    by_cases h2 : fi.owner = o ∧ fi.group = g <;>
      simp [perms, h1, h2]

/-- The converged entry that `filestr` leaves at the destination after a
successful write-and-reconcile: a regular file with the requested contents,
mode, owner and group. -/
def converged (contents : String) (owner group mode : Nat) : FileEntry :=
  { filetype := FileType.File, perms := mode, owner := owner, group := group,
    target := none, contents := contents }

end Ensure

namespace Libcfgparser

/-- A keyword record (`libcfgparser::Keyword`): the generic result of
parsing one configuration line.  The `options` field of the source is an
`Option<HashMap<String, String>>`; the map is modelled as an association
list with unique keys. -/
structure Keyword where
  name : String
  options : Option (List (String × String))
  arguments : List String
deriving DecidableEq, Repr

/-- Lookup in the modelled options map (`HashMap` indexing / `get`): the
value of the first pair carrying the key. -/
def map_get : List (String × String) → String → Option String
  | [], _ => none
  | kv :: rest, k => if kv.1 = k then some kv.2 else map_get rest k

/-- Embeds the option-map construction of `SysConfigParser::parse_config`
(`libcfgparser/src/lib.rs` lines 128-135): for each `(key, value)` pair of
the line, in order, the pair is inserted only when the key is not yet
present (`if !m.contains_key(&key) { m.insert(key, value); }`). -/
def build_options_map (o : List (String × String)) : List (String × String) :=
  o.foldl (fun m kv => if (map_get m kv.1).isSome then m else m ++ [kv]) []

theorem map_get_append (a b : List (String × String)) (k : String) :
    map_get (a ++ b) k =
      match map_get a k with
      | some v => some v
      | none => map_get b k := by
  induction a with
  | nil => simp [map_get]
  | cons kv rest ih =>
    by_cases hk : kv.1 = k <;> simp [map_get, hk, ih]

theorem build_options_map_go (l acc : List (String × String)) (k : String) :
    map_get (l.foldl
        (fun m kv => if (map_get m kv.1).isSome then m else m ++ [kv]) acc) k =
      match map_get acc k with
      | some v => some v
      | none => map_get l k := by
  induction l generalizing acc with
  | nil =>
    cases h : map_get acc k <;> simp [map_get, h]
  | cons kv t ih =>
    simp only [List.foldl_cons]
    by_cases hin : (map_get acc kv.1).isSome
    · rw [if_pos hin, ih]
      cases h : map_get acc k with
      | some v => simp
      | none =>
        by_cases hk : kv.1 = k
        · rw [hk] at hin
          rw [h] at hin
          simp at hin
        · simp [map_get, hk]
    · rw [if_neg hin, ih, map_get_append]
      cases h : map_get acc k with
      | some v => simp
      | none =>
        by_cases hk : kv.1 = k <;> simp [map_get, hk]

end Libcfgparser

namespace Libinstall

/-- Embeds `VDEVType` of `libinstall/src/lib.rs` (the same enum also exists
verbatim in `libinstall/src/config/mod.rs`). -/
inductive VDEVType where
  | Empty
  | Mirror
  | RaidZ1
  | RaidZ2
  | RaidZ3
deriving DecidableEq, Repr

/-- Embeds `impl ToString for VDEVType`. -/
def VDEVType.to_string : VDEVType → String
  | .Empty => ""
  | .Mirror => "mirror"
  | .RaidZ1 => "raidz1"
  | .RaidZ2 => "raidz2"
  | .RaidZ3 => "raidz3"

/-- Embeds `VDEVConfiguration`: a vdev group with its redundancy kind and
ordered device list.  `Default` gives an `Empty` group with no devices. -/
structure VDEVConfiguration where
  vdev_type : VDEVType := VDEVType.Empty
  devices : List String := []
deriving DecidableEq, Repr

/-- The group-type tokens recognized by the vdev-grouping loop: the match
arms `"mirror"`, `"raidz" | "raidz1"`, `"raidz2"`, `"raidz3"`. -/
def group_token : String → Option VDEVType
  | "mirror" => some VDEVType.Mirror
  | "raidz" => some VDEVType.RaidZ1
  | "raidz1" => some VDEVType.RaidZ1
  | "raidz2" => some VDEVType.RaidZ2
  | "raidz3" => some VDEVType.RaidZ3
  | _ => none

/-- One iteration of the vdev-grouping loop of the `"zpool-create"` arm of
`libinstall::parse_keywords` (lines 258-298; the loop of
`config/mod.rs::parse_config_to_instructions`, lines 192-229, is
identical).  State: the completed groups and the in-progress group.  On a
group-type token the in-progress group is pushed *only when its type is not
`Empty`* (`if vdev_config.vdev_type != VDEVType::Empty`), then the type of
the (possibly retained) in-progress group is set; any other token is
appended to the devices of the in-progress group. -/
def vdev_step (acc : List VDEVConfiguration × VDEVConfiguration)
    (opt : String) : List VDEVConfiguration × VDEVConfiguration :=
  match group_token opt with
  | some t =>
    if acc.2.vdev_type ≠ VDEVType.Empty then
      (acc.1 ++ [acc.2], { vdev_type := t, devices := [] })
    else
      (acc.1, { acc.2 with vdev_type := t })
  | none => (acc.1, { acc.2 with devices := acc.2.devices ++ [opt] })

/-- The vdev-grouping loop over the arguments that follow the pool name:
fold `vdev_step` from the default state, then push the final in-progress
group unconditionally (`vdevs.push(vdev_config.clone())` after the loop). -/
def parse_vdevs (args : List String) : List VDEVConfiguration :=
  let st := args.foldl vdev_step ([], {})
  st.1 ++ [st.2]

/-- The `CreatePool` instruction variant of `libinstall::Instruction`,
restricted to its fields. -/
structure CreatePool where
  name : String
  vdevs : List VDEVConfiguration
  ashift : Option Int
  uefi : Bool
  be_name : Option String
  pool_options : Option (List (String × String))
deriving DecidableEq, Repr

/-- Compile-time errors of the `"zpool-create"` arm. -/
inductive CompileError where
  | AshiftNotAnInteger
  | UnknownInstruction (name : String)
deriving DecidableEq, Repr

/-- Embeds the `"zpool-create"` arm of `libinstall::parse_keywords`
(lines 222-307).  here `pool_options` applies the filter of the source,
`|(k, _)| k != "ashift" || k != "uefi"` (a tautology, so every pair is
kept); `ashift` must parse as an integer when present; `uefi` is true iff
the `uefi` option is present — or when no options map is given at all;
the first positional argument is the pool name (defaulting to the empty
string when absent) and the remaining arguments feed the vdev-grouping
loop. -/
def parse_zpool_create (c : Libcfgparser.Keyword) :
    Except CompileError CreatePool := do
  let pool_options := c.options.map (fun opts =>
    opts.filter (fun kv => kv.1 != "ashift" || kv.1 != "uefi"))
  let (ashift, uefi, be_name) ←
    match c.options with
    | some opts => do
      let ashift ←
        match Libcfgparser.map_get opts "ashift" with
        | some a =>
          match a.toInt? with
          | some n => pure (some n)
          | none => throw CompileError.AshiftNotAnInteger
        | none => pure (none : Option Int)
      pure (ashift, (Libcfgparser.map_get opts "uefi").isSome,
        Libcfgparser.map_get opts "be_name")
    | none => pure ((none : Option Int), true, (none : Option String))
  let name := match c.arguments with | [] => "" | n :: _ => n
  pure { name := name, vdevs := parse_vdevs c.arguments.tail,
         ashift := ashift, uefi := uefi, be_name := be_name,
         pool_options := pool_options }

/-- The error raised by `create_pool` when its single-disk check fails
(`bail!("more than one single disk defined in pool {} bailing", name)`). -/
inductive CreatePoolError where
  | MoreThanOneSingleDisk (pool : String)
deriving DecidableEq, Repr

/-- Embeds the vdev argument-building loop of `libinstall::create_pool`
(lines 570-587): an `Empty` (untyped) group must hold exactly one device
and at most one such group may appear (`single_disk_added`); a typed group
contributes its type token followed by its devices. -/
def create_pool_vdev_args (name : String) :
    List VDEVConfiguration → List String → Bool →
      Except CreatePoolError (List String)
  | [], args, _ => .ok args
  | vdev :: rest, args, single_disk_added =>
    match vdev.vdev_type with
    | VDEVType.Empty =>
      if vdev.devices.length ≠ 1 ∨ single_disk_added then
        .error (CreatePoolError.MoreThanOneSingleDisk name)
      else
        create_pool_vdev_args name rest
          (args ++ [vdev.devices.headD ""]) true
    | t =>
      create_pool_vdev_args name rest
        ((args ++ [t.to_string]) ++ vdev.devices) single_disk_added

/-- The single-disk validation applied by `create_pool` to the compiled
vdev list, starting with no accumulated arguments. -/
def create_pool_check (name : String) (vdevs : List VDEVConfiguration) :
    Except CreatePoolError (List String) :=
  create_pool_vdev_args name vdevs [] false

end Libinstall

namespace Libsysconfig

/-- Embeds `RootPasswordType` of `libsysconfig/src/lib.rs`. -/
inductive RootPasswordType where
  | Clear (s : String)
  | Hash (s : String)
deriving DecidableEq, Repr

/-- Embeds `NetworkConfig` of `libsysconfig/src/lib.rs`. -/
inductive NetworkConfig where
  | DHCP
  | DHCPStateful
  | DHCPStateless
  | Static (addr : String)
deriving DecidableEq, Repr

/-- Embeds `Instruction` of `libsysconfig/src/lib.rs`: the closed set of
typed system-configuration instructions. -/
inductive Instruction where
  | CreateDataset (name : String)
      (properties : Option (List (String × String)))
  | SetLocale (name : String) (unicode : Bool)
  | SetupDNS (domain search : Option String) (nameservers : List String)
  | AddRoute (name route_match gateway : String)
  | SetRootPassword (tp : RootPasswordType)
  | SetHostname (name : String)
  | SetKeymap (name : String)
  | SetTimezone (name : String)
  | SetupTerminal (name label modules prompt : Option String)
      (terminal_type : String)
  | SetTimeServer (name : String)
  | ConfigureNetworkAdapter (device : String) (name : Option String)
      (ipv4 ipv6 : Option NetworkConfig) (primary : Bool)
deriving DecidableEq, Repr

/-- Embeds `InstructionError` of `libsysconfig/src/lib.rs`.  `IndexPanic`
additionally models the Rust panic on an out-of-bounds `c.arguments[i]`
access. -/
inductive InstructionError where
  | UnknownInstruction (name : String)
  | UnknownOptionInInstruction (keyword opt : String)
  | CommandFailed (command output : String)
  | UnencryptedPassword
  | IndexPanic
deriving DecidableEq, Repr

/-- Rust indexing `c.arguments[i]`, which panics when out of bounds. -/
def get_argument (c : Libcfgparser.Keyword) (i : Nat) :
    Except InstructionError String :=
  match c.arguments.get? i with
  | some s => .ok s
  | none => .error InstructionError.IndexPanic

/-- Embeds the registry of `libsysconfig/src/keywords.rs`
(`get_supported_keywords`): each supported keyword name with the option
names its `KeywordDefinition` allows. -/
def get_supported_keywords : List (String × List String) :=
  [("keyboard", []),
   ("timezone", []),
   ("terminal", []),
   ("timeserver", []),
   ("system_locale", []),
   ("network_interface", ["name", "static", "static6", "primary"]),
   ("dataset",
    ["aclinherit", "aclmode", "atime", "canmount", "checksum", "compression",
     "copies", "devices", "encryption", "keyformat", "keylocation", "exec",
     "filesystem_limit", "special_small_blocks", "mountpoint", "nbmand",
     "pbkdf2iters", "primarycache", "quota", "snapshot_limit", "readonly",
     "recordsize", "redundant_metadata", "refquota", "refreservation",
     "reservation", "secondarycache", "setuid", "sharesmb", "sharenfs",
     "logbias", "snapdir", "sync", "vscan", "xattr", "casesensitivity",
     "normalization", "utf8only"]),
   ("setup_dns", ["search", "domain"]),
   ("route", []),
   ("root_password", [])]

/-- Embeds the option loop of the `"terminal"` arm of
`libsysconfig::parse_keywords` (lines 119-142): each `(key, value)` pair is
matched against the five recognized option names; any other key is an
immediate `UnknownOptionInInstruction(c.name, key)` error.  The source
iterates a `HashMap` in unspecified order; the model iterates the pairs in
list order. -/
def terminal_options_loop (keyword_name : String) :
    List (String × String) →
    Option String × Option String × Option String × Option String × String →
    Except InstructionError
      (Option String × Option String × Option String × Option String × String)
  | [], acc => .ok acc
  | (k, v) :: rest, (n, l, mo, p, t) =>
    if k = "name" then terminal_options_loop keyword_name rest (some v, l, mo, p, t)
    else if k = "label" then terminal_options_loop keyword_name rest (n, some v, mo, p, t)
    else if k = "module" then terminal_options_loop keyword_name rest (n, l, some v, p, t)
    else if k = "prompt" then terminal_options_loop keyword_name rest (n, l, mo, some v, t)
    else if k = "type" then terminal_options_loop keyword_name rest (n, l, mo, p, v)
    else .error (InstructionError.UnknownOptionInInstruction keyword_name k)

/-- Embeds the option handling of the `"network_interface"` arm
(lines 170-205): `static` selects an IPv4 static address unless its value
contains a colon, in which case it becomes the IPv6 static address (and
`static6` is never consulted); `static6` always selects IPv6; when neither
is present both default to `DHCP` / `DHCPStateful`; `primary` is a presence
flag. -/
def parse_network_options (opts : List (String × String)) :
    Option String × Option NetworkConfig × Option NetworkConfig × Bool :=
  let name_option := Libcfgparser.map_get opts "name"
  let addr :=
    match Libcfgparser.map_get opts "static" with
    | some static_addr =>
      if static_addr.data.contains ':' then
        ((none : Option NetworkConfig),
         some (NetworkConfig.Static static_addr))
      else
        match Libcfgparser.map_get opts "static6" with
        | some static6_addr =>
          (some (NetworkConfig.Static static_addr),
           some (NetworkConfig.Static static6_addr))
        | none => (some (NetworkConfig.Static static_addr), none)
    | none =>
      match Libcfgparser.map_get opts "static6" with
      | some static6_addr =>
        (none, some (NetworkConfig.Static static6_addr))
      | none => (some NetworkConfig.DHCP, some NetworkConfig.DHCPStateful)
  let primary_option := (Libcfgparser.map_get opts "primary").isSome
  (name_option, addr.1, addr.2, primary_option)

/-- Embeds the unicode-flag computation of the `"system_locale"` arm
(lines 215-222): true when the uppercased locale contains `".UTF-8"`,
false when the locale contains a `.` without it, true otherwise. -/
def locale_unicode (locale_name : String) : Bool :=
  if List.IsInfix ".UTF-8".data locale_name.toUpper.data then true
  else if locale_name.data.contains '.' then false
  else true

/-- Models the regex `^\$\d\$` of the `"root_password"` arm (line 274):
the string starts with `$`, a decimal digit, `$`. -/
def is_hash_prefixed (s : String) : Bool :=
  match s.data with
  | '$' :: d :: '$' :: _ => d.isDigit
  | _ => false

/-- Embeds the per-record dispatch of `libsysconfig::parse_keywords`
(`libsysconfig/src/lib.rs` lines 100-295).  The external password-hashing
collaborator `libshadow::gen_password_hash` is a parameter, modelled as a
total function. -/
def compile_keyword (gen_password_hash : String → String)
    (c : Libcfgparser.Keyword) : Except InstructionError Instruction :=
  if c.name = "keyboard" then do
    let a0 ← get_argument c 0
    pure (Instruction.SetKeymap a0)
  else if c.name = "timezone" then do
    let a0 ← get_argument c 0
    pure (Instruction.SetTimezone a0)
  else if c.name = "terminal" then
    match c.options with
    | some opts => do
      let (n, l, mo, p, t) ←
        terminal_options_loop c.name opts (none, none, none, none, "")
      let t ← if t = "" then get_argument c 0 else pure t
      pure (Instruction.SetupTerminal n l mo p t)
    | none => do
      let a0 ← get_argument c 0
      pure (Instruction.SetupTerminal none none none none a0)
  else if c.name = "timeserver" then do
    let a0 ← get_argument c 0
    pure (Instruction.SetTimeServer a0)
  else if c.name = "network_interface" then do
    let parsed :=
      match c.options with
      | some opts => parse_network_options opts
      | none => (none, none, none, false)
    let a0 ← get_argument c 0
    pure (Instruction.ConfigureNetworkAdapter a0 parsed.1 parsed.2.1
      parsed.2.2.1 parsed.2.2.2)
  else if c.name = "system_locale" then do
    let locale_name ← get_argument c 0
    pure (Instruction.SetLocale locale_name (locale_unicode locale_name))
  else if c.name = "dataset" then do
    let a0 ← get_argument c 0
    pure (Instruction.CreateDataset a0 c.options)
  else if c.name = "setup_dns" then
    let od :=
      match c.options with
      | some opts =>
        (Libcfgparser.map_get opts "domain", Libcfgparser.map_get opts "search")
      | none => (none, none)
    .ok (Instruction.SetupDNS od.1 od.2 c.arguments)
  else if c.name = "route" then
    if c.arguments.length > 2 then do
      let a0 ← get_argument c 0
      let a1 ← get_argument c 1
      let a2 ← get_argument c 2
      pure (Instruction.AddRoute a0 a1 a2)
    else do
      let a0 ← get_argument c 0
      let a1 ← get_argument c 1
      pure (Instruction.AddRoute a0 a0 a1)
  else if c.name = "root_password" then do
    let a0 ← get_argument c 0
    pure (Instruction.SetRootPassword
      (if is_hash_prefixed a0 then RootPasswordType.Hash a0
       else RootPasswordType.Hash (gen_password_hash a0)))
  else .error (InstructionError.UnknownInstruction c.name)

/-- Embeds `libsysconfig::parse_keywords`: each record is compiled in
order; the first error aborts the whole compilation. -/
def parse_keywords (gen_password_hash : String → String) :
    List Libcfgparser.Keyword → Except InstructionError (List Instruction)
  | [] => .ok []
  | c :: rest => do
    let i ← compile_keyword gen_password_hash c
    let is ← parse_keywords gen_password_hash rest
    pure (i :: is)

/-- The first option key of a terminal record that the `"terminal"` arm
does not recognize, if any. -/
def terminal_first_unknown : List (String × String) → Option String
  | [] => none
  | (k, _) :: rest =>
    if k = "name" ∨ k = "label" ∨ k = "module" ∨ k = "prompt" ∨ k = "type"
    then terminal_first_unknown rest
    else some k

theorem terminal_options_loop_unknown (keyword_name : String)
    (opts : List (String × String)) (k : String)
    (acc : Option String × Option String × Option String × Option String × String)
    (h : terminal_first_unknown opts = some k) :
    terminal_options_loop keyword_name opts acc =
      .error (InstructionError.UnknownOptionInInstruction keyword_name k) := by
  induction opts generalizing acc with
  | nil => simp [terminal_first_unknown] at h
  | cons kv rest ih =>
    obtain ⟨k0, v0⟩ := kv
    obtain ⟨n, l, mo, p, t⟩ := acc
    by_cases h1 : k0 = "name"
    · simp [terminal_first_unknown, h1] at h
      simpa [terminal_options_loop, h1] using ih _ h
    · by_cases h2 : k0 = "label"
      · simp [terminal_first_unknown, h1, h2] at h
        simpa [terminal_options_loop, h1, h2] using ih _ h
      · by_cases h3 : k0 = "module"
        · simp [terminal_first_unknown, h1, h2, h3] at h
          simpa [terminal_options_loop, h1, h2, h3] using ih _ h
        · by_cases h4 : k0 = "prompt"
          · simp [terminal_first_unknown, h1, h2, h3, h4] at h
            simpa [terminal_options_loop, h1, h2, h3, h4] using ih _ h
          · by_cases h5 : k0 = "type"
            · simp [terminal_first_unknown, h1, h2, h3, h4, h5] at h
              simpa [terminal_options_loop, h1, h2, h3, h4, h5] using ih _ h
            · simp [terminal_first_unknown, h1, h2, h3, h4, h5] at h
              subst h
              simp [terminal_options_loop, h1, h2, h3, h4, h5]

end Libsysconfig

namespace Libshadow

/-- Embeds `ShadowEntry` of `libshadow/src/lib.rs` (`i64` fields as `Int`). -/
structure ShadowEntry where
  username : String
  password_hash : String
  password_locked : Bool
  no_login : Bool
  no_password : Bool
  password_last_changed : Int
  min : Int
  max : Int
  warn : Int
  inactive : Int
  expire : Int
  flag : Int
deriving DecidableEq, Repr

/-- Embeds `ShadowEntry::set_password_hash`. -/
def set_password_hash (e : ShadowEntry) (new_hash : String) : ShadowEntry :=
  { e with password_hash := new_hash }

/-- A `ShadowFile` is its ordered list of entries. -/
abbrev ShadowFile := List ShadowEntry

/-- Embeds `ShadowFile::get_entry`: the first entry with the username. -/
def get_entry : ShadowFile → String → Option ShadowEntry
  | [], _ => none
  | e :: rest, username =>
    if e.username = username then some e else get_entry rest username

/-- Embeds `ShadowFile::insert_or_update`: replaces the first entry whose
username matches the given entry; despite its doc comment, the source never
appends a new entry when no username matches. -/
def insert_or_update : ShadowFile → ShadowEntry → ShadowFile
  | [], _ => []
  | e :: rest, entry =>
    if e.username = entry.username then entry :: rest
    else e :: insert_or_update rest entry

theorem get_entry_username (sf : ShadowFile) (u : String) (e : ShadowEntry)
    (h : get_entry sf u = some e) : e.username = u := by
  induction sf with
  | nil => simp [get_entry] at h
  | cons e0 rest ih =>
    by_cases h0 : e0.username = u
    · simp [get_entry, h0] at h
      rw [← h]
      exact h0
    · simp [get_entry, h0] at h
      exact ih h

theorem get_entry_insert_or_update (sf : ShadowFile) (entry : ShadowEntry)
    (u : String) (hu : entry.username = u)
    (hex : (get_entry sf u).isSome) :
    get_entry (insert_or_update sf entry) u = some entry := by
  induction sf with
  | nil => simp [get_entry] at hex
  | cons e0 rest ih =>
    by_cases h0 : e0.username = u
    · have heq : e0.username = entry.username := by rw [h0, hu]
      simp [insert_or_update, heq, get_entry, hu]
    · have hne : ¬e0.username = entry.username := by rw [hu]; exact h0
      have hex2 : (get_entry rest u).isSome := by
        simpa [get_entry, h0] using hex
      simp [insert_or_update, hne, get_entry, h0]
      exact ih hex2

end Libshadow

namespace IllumosDriver

/-- Embeds the `SetRootPassword` arm of
`illumos_driver::apply_instruction` (lines 70-73) together with
`set_root_password_hash` (lines 240-261), at the level of the parsed
shadow file: the `Clear` variant is refused with `UnencryptedPassword`
before the shadow file is even read; the `Hash` variant updates the `root`
entry of the shadow file (or, when no `root` entry exists, warns and
leaves the file untouched).  The result pairs the driver outcome with the
shadow file afterwards. -/
def apply_set_root_password (tp : Libsysconfig.RootPasswordType)
    (shadow : Libshadow.ShadowFile) :
    Except Libsysconfig.InstructionError String × Libshadow.ShadowFile :=
  match tp with
  | Libsysconfig.RootPasswordType.Clear _ =>
    (.error Libsysconfig.InstructionError.UnencryptedPassword, shadow)
  | Libsysconfig.RootPasswordType.Hash h =>
    match Libshadow.get_entry shadow "root" with
    | some root_user =>
      (.ok "success",
       Libshadow.insert_or_update shadow
         (Libshadow.set_password_hash root_user h))
    | none => (.ok "success", shadow)

end IllumosDriver

namespace Zfs

/-- Models Rust `str::trim`: strip leading and trailing whitespace. -/
def rust_trim (s : String) : String :=
  ⟨((s.data.dropWhile Char.isWhitespace).reverse.dropWhile
      Char.isWhitespace).reverse⟩

/-- Models Rust `str::ends_with`. -/
def rust_ends_with (s suffix : String) : Bool :=
  suffix.data.isSuffixOf s.data

/-- Outcome of one `/sbin/zpool export` invocation: whether the exit
status was success, and the captured stderr. -/
structure CmdOutput where
  success : Bool
  stderr : String
deriving DecidableEq, Repr

/-- Whether an attempt outcome takes the retry path of `pool_export`: the
command failed and its trimmed stderr ends with `"pool is busy"`. -/
def busy_failure (c : CmdOutput) : Bool :=
  !c.success && rust_ends_with (rust_trim c.stderr) "pool is busy"

/-- Embeds the retry loop of `zfs.rs::pool_export` (lines 146-164), with
the i-th invocation of `/sbin/zpool export` given by the oracle
`outcomes`, and an explicit bound `fuel` on the number of attempts
observed: `none` means the loop is still running after `fuel` attempts.
On success the loop breaks (the function returns `Ok(true)`); on a busy
failure it sleeps one second (real-time behavior, not modelled) and
retries; on any other failure it bails immediately. -/
def pool_export_loop (outcomes : Nat → CmdOutput) :
    Nat → Nat → Option (Except String Bool)
  | _, 0 => none
  | i, fuel + 1 =>
    let cmd := outcomes i
    if cmd.success then some (.ok true)
    else if rust_ends_with (rust_trim cmd.stderr) "pool is busy" then
      pool_export_loop outcomes (i + 1) fuel
    else some (.error ("zpool export failed: " ++ cmd.stderr))

/-- Embeds `zfs.rs::pool_export`: the `@`-guard, then the retry loop. -/
def pool_export (name : String) (outcomes : Nat → CmdOutput) (fuel : Nat) :
    Option (Except String Bool) :=
  if name.data.contains '@' then some (.error "no @ allowed here")
  else pool_export_loop outcomes 0 fuel

/-- Divergence: `pool_export` yields no result within any attempt bound —
the loop runs forever. -/
def pool_export_diverges (name : String) (outcomes : Nat → CmdOutput) :
    Prop :=
  ∀ fuel, pool_export name outcomes fuel = none

/-- The command oracle of a persistently busy pool. -/
def always_busy : Nat → CmdOutput := fun _ => ⟨false, "pool is busy"⟩

theorem pool_export_loop_busy (outcomes : Nat → CmdOutput)
    (hbusy : ∀ i, busy_failure (outcomes i) = true) :
    ∀ fuel i, pool_export_loop outcomes i fuel = none := by
  intro fuel
  induction fuel with
  | zero => intro i; rfl
  | succ f ih =>
    intro i
    have hb := hbusy i
    simp only [busy_failure, Bool.and_eq_true, Bool.not_eq_true,
      Bool.not_eq_true'] at hb
    simp [pool_export_loop, hb.1, hb.2, ih]

end Zfs

open Libsysconfig Libshadow IllumosDriver in
/-- C8: the real driver refuses a `SetRootPassword` instruction carrying
the `Clear` variant with the `UnencryptedPassword` error, leaving the
shadow file untouched; the `Hash` variant proceeds and replaces the
password hash of the `root` entry of the shadow file. -/
theorem claim_C8_clear_refused (s h : String) (shadow : ShadowFile) :
    apply_set_root_password (RootPasswordType.Clear s) shadow =
      (.error InstructionError.UnencryptedPassword, shadow)
  ∧ (∀ e, get_entry shadow "root" = some e →
      apply_set_root_password (RootPasswordType.Hash h) shadow =
        (.ok "success", insert_or_update shadow (set_password_hash e h))
      ∧ get_entry
          (apply_set_root_password (RootPasswordType.Hash h) shadow).2
          "root" = some (set_password_hash e h)) := by
  refine ⟨rfl, ?_⟩
  intro e he
  have h1 : apply_set_root_password (RootPasswordType.Hash h) shadow =
      (.ok "success", insert_or_update shadow (set_password_hash e h)) := by
    simp [apply_set_root_password, he]
  refine ⟨h1, ?_⟩
  rw [h1]
  refine get_entry_insert_or_update shadow (set_password_hash e h) "root"
    ?_ (by simp [he])
  have := get_entry_username shadow "root" e he
  simpa [set_password_hash] using this

open Libsysconfig Libshadow IllumosDriver in
/-- Witness for C8 on a two-entry shadow file holding a `root` entry. -/
theorem claim_C8_clear_refused_witness :
    apply_set_root_password (RootPasswordType.Clear "pw")
        [⟨"root", "old", false, false, false, 6445, -1, -1, -1, -1, -1, 0⟩,
         ⟨"daemon", "NP", false, false, false, 6445, -1, -1, -1, -1, -1, 0⟩] =
      (.error InstructionError.UnencryptedPassword,
       [⟨"root", "old", false, false, false, 6445, -1, -1, -1, -1, -1, 0⟩,
        ⟨"daemon", "NP", false, false, false, 6445, -1, -1, -1, -1, -1, 0⟩])
  ∧ get_entry
      (apply_set_root_password (RootPasswordType.Hash "$6$new")
        [⟨"root", "old", false, false, false, 6445, -1, -1, -1, -1, -1, 0⟩,
         ⟨"daemon", "NP", false, false, false, 6445, -1, -1, -1, -1, -1, 0⟩]).2
      "root" =
      some ⟨"root", "$6$new", false, false, false, 6445, -1, -1, -1, -1, -1,
        0⟩ := by
  have hinst := claim_C8_clear_refused "pw" "$6$new"
    [⟨"root", "old", false, false, false, 6445, -1, -1, -1, -1, -1, 0⟩,
     ⟨"daemon", "NP", false, false, false, 6445, -1, -1, -1, -1, -1, 0⟩]
  refine ⟨hinst.1, ?_⟩
  have h2 := (hinst.2
    ⟨"root", "old", false, false, false, 6445, -1, -1, -1, -1, -1, 0⟩
    (by decide)).2
  simpa [set_password_hash] using h2

open Zfs in
/-- C10 (counterexample): on a persistently busy pool, `pool_export` does
NOT escalate to a fatal error after boundedly many retries: with every
attempt failing with stderr `"pool is busy"`, the retry loop is still
running after every number of attempts — it never terminates. -/
theorem claim_C10_counterexample :
    pool_export_diverges "rpool" always_busy := by
  intro fuel
  have hng : ("rpool".data.contains '@') = false := by decide
  simp only [pool_export, hng, Bool.false_eq_true, if_false]
  exact pool_export_loop_busy always_busy (fun _ => rfl) fuel 0

open Zfs in
/-- C10 (amended): `pool_export` retries an export attempt exactly when
the captured stderr, trimmed, ends with `"pool is busy"` (sleeping one
second between attempts), returns `Ok(true)` on a successful attempt, and
fails immediately on any other error — but the retries are NOT bounded: on
a persistently busy pool the loop never terminates, so there is no
escalation to a fatal error. -/
theorem claim_C10_pool_export_retry (name : String)
    (outcomes : Nat → CmdOutput) (hname : name.data.contains '@' = false) :
    ((outcomes 0).success = true →
      ∀ fuel, pool_export name outcomes (fuel + 1) = some (.ok true))
  ∧ ((outcomes 0).success = false →
      rust_ends_with (rust_trim (outcomes 0).stderr) "pool is busy"
        = false →
      ∀ fuel, pool_export name outcomes (fuel + 1) =
        some (.error ("zpool export failed: " ++ (outcomes 0).stderr)))
  ∧ ((∀ i, busy_failure (outcomes i) = true) →
      ∀ fuel, pool_export name outcomes fuel = none) := by
  refine ⟨?_, ?_, ?_⟩
  · intro hs fuel
    simp only [pool_export, hname, Bool.false_eq_true, if_false]
    simp [pool_export_loop, hs]
  · intro hs hb fuel
    simp only [pool_export, hname, Bool.false_eq_true, if_false]
    simp [pool_export_loop, hs, hb]
  · intro hb fuel
    simp only [pool_export, hname, Bool.false_eq_true, if_false]
    exact pool_export_loop_busy outcomes hb fuel 0

open Zfs in
/-- Witness for C10 (amended): a first-attempt success exports the pool; a
non-busy failure bails immediately; a persistently busy pool is still
retrying after three attempts. -/
theorem claim_C10_pool_export_retry_witness :
    pool_export "rpool" (fun _ => ⟨true, ""⟩) 1 = some (.ok true)
  ∧ pool_export "rpool" (fun _ => ⟨false, "no such pool"⟩) 1 =
      some (.error ("zpool export failed: " ++ "no such pool"))
  ∧ pool_export "rpool" always_busy 3 = none := by
  refine ⟨?_, ?_, ?_⟩
  · exact (claim_C10_pool_export_retry "rpool" (fun _ => ⟨true, ""⟩)
      (by decide)).1 rfl 0
  · exact (claim_C10_pool_export_retry "rpool"
      (fun _ => ⟨false, "no such pool"⟩) (by decide)).2.1 rfl (by decide) 0
  · exact (claim_C10_pool_export_retry "rpool" always_busy
      (by decide)).2.2 (fun _ => rfl) 3

open Libsysconfig in
/-- C4 (counterexample): a `network_interface` record carrying the option
key `bogus` — which is outside the `allowed_options` set registered for
`network_interface` in `get_supported_keywords` — nevertheless compiles
successfully: the registered option schema is never consulted and the
unrecognized option is silently ignored. -/
theorem claim_C4_counterexample :
    ("network_interface", ["name", "static", "static6", "primary"])
      ∈ get_supported_keywords
  ∧ "bogus" ∉ ["name", "static", "static6", "primary"]
  ∧ parse_keywords (fun s => s)
        [⟨"network_interface", some [("bogus", "x")], ["net0"]⟩] =
      .ok [Instruction.ConfigureNetworkAdapter "net0" none
        (some NetworkConfig.DHCP) (some NetworkConfig.DHCPStateful) false] := by
  exact ⟨by decide, by decide, rfl⟩

open Libsysconfig in
/-- C4 (amended): only the `terminal` keyword rejects unrecognized options:
a terminal record whose options contain a key outside
{name, label, module, prompt, type} fails with an error naming the keyword
and the (first) offending option, however many valid options are present;
a `network_interface` record, by contrast, compiles successfully whatever
option keys it carries — the registered `allowed_options` sets are not
consulted at compile time. -/
theorem claim_C4_option_closure (gen : String → String)
    (opts : List (String × String)) (args : List String)
    (dev : String) (k : String) :
    (terminal_first_unknown opts = some k →
      parse_keywords gen [⟨"terminal", some opts, args⟩] =
        .error (InstructionError.UnknownOptionInInstruction "terminal" k))
  ∧ (∃ i, parse_keywords gen [⟨"network_interface", some opts, [dev]⟩] =
        .ok [i]) := by
  constructor
  · intro h
    have hloop := terminal_options_loop_unknown "terminal" opts k
      (none, none, none, none, "") h
    simp only [parse_keywords, compile_keyword, String.reduceEq, if_false,
      if_true, reduceIte, hloop]
    rfl
  · exact ⟨_, rfl⟩

open Libsysconfig in
/-- Witness for C4 (amended): a terminal record with the unknown option
`frobnicate` (next to the valid option `label`) fails naming it; a
`network_interface` record with the same unknown option compiles. -/
theorem claim_C4_option_closure_witness :
    parse_keywords (fun s => s)
        [⟨"terminal", some [("label", "x"), ("frobnicate", "y")], ["vt100"]⟩] =
      .error (InstructionError.UnknownOptionInInstruction "terminal"
        "frobnicate")
  ∧ (∃ i, parse_keywords (fun s => s)
        [⟨"network_interface", some [("label", "x"), ("frobnicate", "y")],
          ["net0"]⟩] = .ok [i]) :=
  ⟨(claim_C4_option_closure (fun s => s) [("label", "x"), ("frobnicate", "y")]
      ["vt100"] "net0" "frobnicate").1 (by decide),
   (claim_C4_option_closure (fun s => s) [("label", "x"), ("frobnicate", "y")]
      ["vt100"] "net0" "frobnicate").2⟩

open Libsysconfig in
/-- C6 (counterexample): a `network_interface` record that carries no
options map at all does NOT default to DHCP: it compiles with
`ipv4 = None` and `ipv6 = None` (the DHCP / DHCP-stateful defaults apply
only when an options map is present). -/
theorem claim_C6_counterexample :
    parse_keywords (fun s => s) [⟨"network_interface", none, ["net0"]⟩] =
      .ok [Instruction.ConfigureNetworkAdapter "net0" none none none false]
  ∧ (none : Option NetworkConfig) ≠ some NetworkConfig.DHCP := by
  exact ⟨rfl, by decide⟩

open Libsysconfig in
/-- C6 (amended): when an options map is present and contains neither
`static` nor `static6`, the compiled adapter gets `ipv4 = DHCP` and
`ipv6 = DHCPStateful`; a record with no options map at all compiles with
`ipv4 = None` and `ipv6 = None`; `static6` is compiled as the IPv6 static
address when `static` is absent — but when `static` is present with a
colon-containing value, that value becomes the IPv6 static address and
`static6` is ignored. -/
theorem claim_C6_network_defaults (gen : String → String) (dev : String)
    (opts : List (String × String)) :
    (Libcfgparser.map_get opts "static" = none →
     Libcfgparser.map_get opts "static6" = none →
      parse_keywords gen [⟨"network_interface", some opts, [dev]⟩] =
        .ok [Instruction.ConfigureNetworkAdapter dev
          (Libcfgparser.map_get opts "name") (some NetworkConfig.DHCP)
          (some NetworkConfig.DHCPStateful)
          ((Libcfgparser.map_get opts "primary").isSome)])
  ∧ (parse_keywords gen [⟨"network_interface", none, [dev]⟩] =
      .ok [Instruction.ConfigureNetworkAdapter dev none none none false])
  ∧ (∀ v6, Libcfgparser.map_get opts "static6" = some v6 →
      Libcfgparser.map_get opts "static" = none →
      parse_keywords gen [⟨"network_interface", some opts, [dev]⟩] =
        .ok [Instruction.ConfigureNetworkAdapter dev
          (Libcfgparser.map_get opts "name") none
          (some (NetworkConfig.Static v6))
          ((Libcfgparser.map_get opts "primary").isSome)])
  ∧ (∀ v4 v6, Libcfgparser.map_get opts "static" = some v4 →
      v4.data.contains ':' = true →
      Libcfgparser.map_get opts "static6" = some v6 →
      parse_keywords gen [⟨"network_interface", some opts, [dev]⟩] =
        .ok [Instruction.ConfigureNetworkAdapter dev
          (Libcfgparser.map_get opts "name") none
          (some (NetworkConfig.Static v4))
          ((Libcfgparser.map_get opts "primary").isSome)]) := by
  refine ⟨?_, rfl, ?_, ?_⟩
  · intro h4 h6
    simp only [parse_keywords, compile_keyword, parse_network_options,
      String.reduceEq, reduceIte, h4, h6, get_argument]
    rfl
  · intro v6 h6 h4
    simp only [parse_keywords, compile_keyword, parse_network_options,
      String.reduceEq, reduceIte, h4, h6, get_argument]
    rfl
  · intro v4 v6 h4 hc h6
    simp only [parse_keywords, compile_keyword, parse_network_options,
      String.reduceEq, reduceIte, h4, hc, h6, get_argument]
    rfl

open Libsysconfig in
/-- Witness for C6 (amended) at concrete option maps: an empty map gives
the DHCP defaults; `static6=fe80::1` alone selects an IPv6 static address;
`static=fd00::2` (colon-containing) with `static6=fe80::1` selects the
`static` value as the IPv6 address, dropping `static6`. -/
theorem claim_C6_network_defaults_witness :
    parse_keywords (fun s => s) [⟨"network_interface", some [], ["net0"]⟩] =
      .ok [Instruction.ConfigureNetworkAdapter "net0" none
        (some NetworkConfig.DHCP) (some NetworkConfig.DHCPStateful) false]
  ∧ parse_keywords (fun s => s)
        [⟨"network_interface", some [("static6", "fe80::1")], ["net0"]⟩] =
      .ok [Instruction.ConfigureNetworkAdapter "net0" none none
        (some (NetworkConfig.Static "fe80::1")) false]
  ∧ parse_keywords (fun s => s)
        [⟨"network_interface",
          some [("static", "fd00::2"), ("static6", "fe80::1")], ["net0"]⟩] =
      .ok [Instruction.ConfigureNetworkAdapter "net0" none none
        (some (NetworkConfig.Static "fd00::2")) false] := by
  refine ⟨?_, ?_, ?_⟩
  · exact (claim_C6_network_defaults (fun s => s) "net0" []).1 rfl rfl
  · exact (claim_C6_network_defaults (fun s => s) "net0"
      [("static6", "fe80::1")]).2.2.1 "fe80::1" (by decide) (by decide)
  · exact (claim_C6_network_defaults (fun s => s) "net0"
      [("static", "fd00::2"), ("static6", "fe80::1")]).2.2.2 "fd00::2"
      "fe80::1" (by decide) (by decide) (by decide)

open Libsysconfig in
/-- C7: the `root_password` keyword always compiles to the `Hash` variant
of `SetRootPassword`: when the argument matches `^\$\d\$` it is stored
unchanged; otherwise the stored value is the output of the hashing
collaborator — the `Clear` variant is never produced and a cleartext
argument is never stored verbatim by this branch. -/
theorem claim_C7_root_password (gen : String → String) (arg : String) :
    ∃ h, parse_keywords gen [⟨"root_password", none, [arg]⟩] =
        .ok [Instruction.SetRootPassword (RootPasswordType.Hash h)]
      ∧ h = (if is_hash_prefixed arg then arg else gen arg) := by
  have key : parse_keywords gen [⟨"root_password", none, [arg]⟩] =
      .ok [Instruction.SetRootPassword
        (if is_hash_prefixed arg then RootPasswordType.Hash arg
         else RootPasswordType.Hash (gen arg))] := rfl
  by_cases hp : is_hash_prefixed arg
  · exact ⟨arg, by rw [key]; simp [hp], by simp [hp]⟩
  · exact ⟨gen arg, by rw [key]; simp [hp], by simp [hp]⟩

open Libinstall in
/-- C2 (counterexample): compiling `"zpool-create pool1 d1 d2"` does NOT
fail at compile time, contrary to the claim: the `"zpool-create"` arm of
`parse_keywords` succeeds, producing a single untyped `Empty{d1,d2}` group
(the single-disk restriction is enforced only later, by `create_pool`, at
apply time). -/
theorem claim_C2_counterexample :
    parse_zpool_create ⟨"zpool-create", none, ["pool1", "d1", "d2"]⟩ =
      .ok { name := "pool1",
            vdevs := [{ vdev_type := VDEVType.Empty, devices := ["d1", "d2"] }],
            ashift := none, uefi := true, be_name := none,
            pool_options := none } := by
  rfl

open Libinstall in
/-- C2 (amended): `"zpool-create pool1 mirror d1 d2 raidz1 d3 d4 d5"`
compiles to pool `pool1` with exactly the two groups `Mirror{d1,d2}` and
`RaidZ1{d3,d4,d5}`; `"zpool-create pool1 d1"` compiles to exactly one
`Empty{d1}` group; and `"zpool-create pool1 d1 d2"` also compiles — to one
`Empty{d1,d2}` group — and it is the single-disk check of `create_pool`,
run when the instruction is applied, that rejects that vdev list. -/
theorem claim_C2_zpool_grouping :
    parse_zpool_create
        ⟨"zpool-create", none,
         ["pool1", "mirror", "d1", "d2", "raidz1", "d3", "d4", "d5"]⟩ =
      .ok { name := "pool1",
            vdevs := [{ vdev_type := VDEVType.Mirror, devices := ["d1", "d2"] },
                      { vdev_type := VDEVType.RaidZ1,
                        devices := ["d3", "d4", "d5"] }],
            ashift := none, uefi := true, be_name := none,
            pool_options := none }
  ∧ parse_zpool_create ⟨"zpool-create", none, ["pool1", "d1"]⟩ =
      .ok { name := "pool1",
            vdevs := [{ vdev_type := VDEVType.Empty, devices := ["d1"] }],
            ashift := none, uefi := true, be_name := none,
            pool_options := none }
  ∧ parse_zpool_create ⟨"zpool-create", none, ["pool1", "d1", "d2"]⟩ =
      .ok { name := "pool1",
            vdevs := [{ vdev_type := VDEVType.Empty, devices := ["d1", "d2"] }],
            ashift := none, uefi := true, be_name := none,
            pool_options := none }
  ∧ create_pool_check "pool1"
        [{ vdev_type := VDEVType.Empty, devices := ["d1", "d2"] }] =
      .error (CreatePoolError.MoreThanOneSingleDisk "pool1") := by
  refine ⟨rfl, rfl, rfl, rfl⟩

open Libinstall in
/-- C3 (counterexample): a device argument that precedes a group-type token
does NOT form its own implicit single-disk group: compiling the argument
sequence `d1 mirror d2` yields the single group `Mirror{d1,d2}` — `d1`
becomes a member of the later mirror group and no `Empty{d1}` group is
produced. -/
theorem claim_C3_counterexample :
    parse_vdevs ["d1", "mirror", "d2"]
      = [{ vdev_type := VDEVType.Mirror, devices := ["d1", "d2"] }]
  ∧ { vdev_type := VDEVType.Empty, devices := ["d1"] }
      ∉ parse_vdevs ["d1", "mirror", "d2"] := by
  refine ⟨rfl, by decide⟩

open Libinstall in
/-- C3 (amended): a group-type token pushes the in-progress group to the
output vdev list only when that group already has a non-`Empty` type; an
untyped in-progress group is not pushed — its accumulated devices are
retained and become members of the newly opened typed group. -/
theorem claim_C3_group_token_push (vdevs : List VDEVConfiguration)
    (cur : VDEVConfiguration) (opt : String) (t : VDEVType)
    (ht : group_token opt = some t) :
    (cur.vdev_type = VDEVType.Empty →
      vdev_step (vdevs, cur) opt = (vdevs, { cur with vdev_type := t }))
  ∧ (cur.vdev_type ≠ VDEVType.Empty →
      vdev_step (vdevs, cur) opt =
        (vdevs ++ [cur], { vdev_type := t, devices := [] })) := by
  constructor
  · intro h
    simp [vdev_step, ht, h]
  · intro h
    simp [vdev_step, ht, h]

open Libinstall in
/-- Witness for C3 (amended): an untyped group holding `d1` meets `mirror`
and keeps `d1`; a typed mirror group meets `raidz1` and is pushed. -/
theorem claim_C3_group_token_push_witness :
    vdev_step ([], { vdev_type := VDEVType.Empty, devices := ["d1"] })
        "mirror"
      = ([], { vdev_type := VDEVType.Mirror, devices := ["d1"] })
  ∧ vdev_step ([], { vdev_type := VDEVType.Mirror, devices := ["d1"] })
        "raidz1"
      = ([{ vdev_type := VDEVType.Mirror, devices := ["d1"] }],
         { vdev_type := VDEVType.RaidZ1, devices := [] }) := by
  constructor
  · exact (claim_C3_group_token_push []
      { vdev_type := VDEVType.Empty, devices := ["d1"] } "mirror"
      VDEVType.Mirror rfl).1 rfl
  · exact (claim_C3_group_token_push []
      { vdev_type := VDEVType.Mirror, devices := ["d1"] } "raidz1"
      VDEVType.RaidZ1 rfl).2 (by decide)

open Libcfgparser in
/-- C5 (counterexample): when the same option name appears twice on a line,
the map built by `parse_config` keeps the FIRST occurrence, not the last:
from the in-order pairs `a=1, a=2` the record maps `a` to `"1"`. -/
theorem claim_C5_counterexample :
    map_get (build_options_map [("a", "1"), ("a", "2")]) "a" = some "1"
  ∧ map_get (build_options_map [("a", "1"), ("a", "2")]) "a" ≠ some "2" := by
  refine ⟨rfl, by decide⟩

open Libcfgparser in
/-- C5 (amended): duplicate option keys are resolved first-wins — for every
in-order pair list of a line and every key, the constructed options map
yields the value of the first occurrence of that key. -/
theorem claim_C5_first_wins (o : List (String × String)) (k : String) :
    map_get (build_options_map o) k = map_get o k := by
  have h := build_options_map_go o [] k
  simpa [map_get, build_options_map] using h

open Ensure in
/-- C1: with policy `Always` on a path with no entry, `filestr` creates the
file with exactly the requested content, reconciles mode and ownership, and
returns `did_work = true`; a second call with identical arguments returns
`did_work = false` and leaves the state unchanged (so the on-disk state is
identical after one or two applications); a call with different content
removes and rewrites the file and returns `did_work = true`. -/
theorem claim_C1_filestr_idempotent (ctx : ProcCtx) (c c' : String)
    (o g m : Nat) (hne : c ≠ c') :
    filestr ctx c none o g m Create.Always
      = .ok (true, some (converged c o g m))
  ∧ filestr ctx c (some (converged c o g m)) o g m Create.Always
      = .ok (false, some (converged c o g m))
  ∧ filestr ctx c' (some (converged c o g m)) o g m Create.Always
      = .ok (true, some (converged c' o g m)) := by
  refine ⟨?_, ?_, ?_⟩
  · simp only [filestr, if_true, reduceIte]
    rw [perms_some]
    split_ifs <;> simp_all [newFile, converged]
  · simp only [filestr, converged, reduceIte, if_true]
    simp only [Bool.false_eq_true, if_false]
    rw [perms_some]
    split_ifs <;> simp_all
  · have hcc : ¬(c = c') := hne
    simp only [filestr, converged, hcc, reduceIte, if_false, if_true]
    rw [perms_some]
    split_ifs <;> simp_all [newFile]

open Ensure in
/-- Witness for C1 at content `"hello"` then `"world"`, owner 0, group 0,
mode `0o644`, with creation mode `0o644` and a root process. -/
theorem claim_C1_filestr_idempotent_witness :
    filestr ⟨420, 0, 0⟩ "hello" none 0 0 420 Create.Always
      = .ok (true, some (converged "hello" 0 0 420))
  ∧ filestr ⟨420, 0, 0⟩ "hello" (some (converged "hello" 0 0 420)) 0 0 420
        Create.Always
      = .ok (false, some (converged "hello" 0 0 420))
  ∧ filestr ⟨420, 0, 0⟩ "world" (some (converged "hello" 0 0 420)) 0 0 420
        Create.Always
      = .ok (true, some (converged "world" 0 0 420)) :=
  claim_C1_filestr_idempotent ⟨420, 0, 0⟩ "hello" "world" 0 0 420 (by decide)

open Ensure in
/-- C9: `perms` on a symbolic link never issues a `chmod` whatever the
requested mode, but still issues a `chown` and reconciles owner and group
when they mismatch; on a non-link entry it issues a `chmod` exactly when the
current permission bits differ from the desired ones, and an entry matching
in mode and ownership is left untouched with `did_work = false`. -/
theorem claim_C9_perms_symlink_exempt (fi : FileEntry) (o g m : Nat) :
    ∃ pr, perms (some fi) o g m = .ok pr
  ∧ (fi.filetype = FileType.Link →
      (∀ mo, FsAction.chmod mo ∉ pr.actions)
      ∧ ((fi.owner ≠ o ∨ fi.group ≠ g) →
          FsAction.chown o g ∈ pr.actions
          ∧ pr.state = some { fi with owner := o, group := g }))
  ∧ (fi.filetype ≠ FileType.Link →
      ((FsAction.chmod m ∈ pr.actions) ↔ fi.perms ≠ m)
      ∧ (fi.perms = m ∧ fi.owner = o ∧ fi.group = g →
          pr = ⟨false, [], some fi⟩)) := by
  by_cases hl : fi.filetype = FileType.Link
  · by_cases ho : fi.owner = o ∧ fi.group = g
    · refine ⟨⟨false, [], some fi⟩, ?_, ?_, ?_⟩
      · simp [perms_some, hl, ho]
      · exact fun _ => ⟨by simp, fun hmis => absurd ho (by tauto)⟩
      · exact fun h => absurd hl h
    · refine ⟨⟨true, [FsAction.chown o g],
        some { fi with owner := o, group := g }⟩, ?_, ?_, ?_⟩
      · simp [perms_some, hl, ho]
      · exact fun _ => ⟨by simp, fun _ => ⟨by simp, rfl⟩⟩
      · exact fun h => absurd hl h
  · by_cases hp : fi.perms = m
    · by_cases ho : fi.owner = o ∧ fi.group = g
      · refine ⟨⟨false, [], some fi⟩, ?_, fun h => absurd h hl, ?_⟩
        · simp [perms_some, hl, ho, hp]
        · exact fun _ => ⟨by simp [hp], fun _ => rfl⟩
      · refine ⟨⟨true, [FsAction.chown o g],
          some { fi with owner := o, group := g }⟩, ?_,
          fun h => absurd h hl, ?_⟩
        · simp [perms_some, hl, ho, hp]
        · exact fun _ => ⟨by simp [hp], fun hm => absurd ho (by tauto)⟩
    · by_cases ho : fi.owner = o ∧ fi.group = g
      · refine ⟨⟨true, [FsAction.chmod m], some { fi with perms := m }⟩, ?_,
          fun h => absurd h hl, ?_⟩
        · simp [perms_some, hl, ho, hp]
        · exact fun _ => ⟨by simp [hp], fun hm => absurd hm.1 hp⟩
      · refine ⟨⟨true, [FsAction.chmod m, FsAction.chown o g],
          some { fi with perms := m, owner := o, group := g }⟩, ?_,
          fun h => absurd h hl, ?_⟩
        · simp [perms_some, hl, ho, hp]
        · exact fun _ => ⟨by simp [hp], fun hm => absurd hm.1 hp⟩

open Ensure in
/-- Witness for C9: a symlink with wrong ownership gets a `chown` and no
`chmod`; a regular file already matching mode and ownership is untouched. -/
theorem claim_C9_perms_symlink_exempt_witness :
    (∃ pr, perms (some ⟨FileType.Link, 511, 1, 1, some "t", ""⟩) 0 0 420
        = .ok pr
      ∧ (∀ mo, FsAction.chmod mo ∉ pr.actions)
      ∧ FsAction.chown 0 0 ∈ pr.actions)
  ∧ (∃ pr, perms (some ⟨FileType.File, 420, 0, 0, none, "x"⟩) 0 0 420
        = .ok pr
      ∧ pr = ⟨false, [], some ⟨FileType.File, 420, 0, 0, none, "x"⟩⟩) := by
  constructor
  · obtain ⟨pr, hpr, hlink, -⟩ :=
      claim_C9_perms_symlink_exempt ⟨FileType.Link, 511, 1, 1, some "t", ""⟩ 0 0 420
    obtain ⟨hnoc, hch⟩ := hlink rfl
    exact ⟨pr, hpr, hnoc, (hch (by simp)).1⟩
  · obtain ⟨pr, hpr, -, hfile⟩ :=
      claim_C9_perms_symlink_exempt ⟨FileType.File, 420, 0, 0, none, "x"⟩ 0 0 420
    exact ⟨pr, hpr, (hfile (by simp) |>.2) ⟨rfl, rfl, rfl⟩⟩
